import Mathlib

/-!
Verification of the `haoda.backend.xilinx` module: a shallow embedding of its
kernel-XML descriptor builder (`print_kernel_xml`), the HLS artifact-collection
logic (`RunHls.__exit__`), the platform-metadata extractor (`get_device_info`),
and the Verilog FIFO generators (`VerilogPrinter.fifo_module` and friends),
together with theorems settling the specification's claims about them.

Python machine-independent nonnegative integers are modelled as `Nat`; the
mutable output stream of the printer is modelled by explicit string-state
passing; Python exceptions are modelled with `Option`/`Except` results.
-/

/-- Python's `"0x%x"`-style formatting used by `'{:#x}'.format(n)`:
lowercase hex digits with a `0x` prefix. -/
def pyHex (n : Nat) : String :=
  "0x" ++ String.mk (Nat.toDigits 16 n)

/-- One character of `xml.sax.saxutils.escape`: `&`, `<`, `>` are replaced by
their XML entities, everything else is kept. -/
def escapeChar (c : Char) : String :=
  if c = '&' then "&amp;"
  else if c = '<' then "&lt;"
  else if c = '>' then "&gt;"
  else String.mk [c]

/-- `xml.sax.saxutils.escape` on a whole string. -/
def saxEscape (s : String) : String :=
  String.join (s.data.map escapeChar)

/-- Python's `str.rstrip('\n')`: drop every trailing newline character. -/
def rstripNewline (s : String) : String :=
  String.mk (s.data.reverse.dropWhile (fun c => c == '\n')).reverse

/-- An element of `axis_inputs` / `axis_outputs`: a 4-tuple
`(port_name, _, haoda_type, _)` where only the name (first component) and the
type's `width_in_bits` (third component, modelled directly as the width) are
read by `print_kernel_xml`. -/
abbrev AxisPort := String × String × Nat × String

/-- The literal `AXIS_PORT_TEMPLATE` of the source, as a rendering function of
its `{name}`, `{mode}` and `{width}` fields. -/
def AXIS_PORT_TEMPLATE (name mode : String) (width : Nat) : String :=
  "\n      <port name=\"" ++ name ++ "\" mode=\"" ++ mode ++ "\" dataWidth=\""
    ++ toString width ++ "\" portType=\"stream\"/>\n"

/-- One `<arg>` element of the kernel descriptor, with the fields that
`print_kernel_xml` passes to `ARG_TEMPLATE.format`. -/
structure KernelArg where
  name : String
  addr_qualifier : Nat
  arg_id : Nat
  port_name : String
  size : Nat
  offset : Nat
  host_size : Nat
  c_type : String
deriving DecidableEq

/-- The literal `ARG_TEMPLATE` of the source, as a rendering function of its
fields; `size`, `offset` and `host_size` are rendered with the `{:#x}` hex
format. -/
def ARG_TEMPLATE (a : KernelArg) : String :=
  "\n      <arg name=\"" ++ a.name ++ "\" addressQualifier=\""
    ++ toString a.addr_qualifier ++ "\" id=\"" ++ toString a.arg_id
    ++ "\" port=\"" ++ a.port_name ++ "\" size=\"" ++ pyHex a.size
    ++ "\" offset=\"" ++ pyHex a.offset ++ "\" hostOffset=\"0x0\" hostSize=\""
    ++ pyHex a.host_size ++ "\" type=\"" ++ a.c_type ++ "\"/>\n"

/-- The `<arg>` record built for one port in the loop body of
`print_kernel_xml`: `addressQualifier` is the constant 4, `size`, `host_size`
are the constant 8 and `offset` the constant 0 (`offset = 0` is set before the
loop and never updated), `arg_id` is the current per-group counter, and the
C type string embeds the raw (unpadded) bit width. -/
def argRecord (arg_id : Nat) (p : AxisPort) : KernelArg :=
  let (port_name, _, haoda_type_width, _) := p
  { name := port_name
    addr_qualifier := 4
    arg_id := arg_id
    port_name := port_name
    size := 8
    offset := 0
    host_size := 8
    c_type := saxEscape ("stream<ap_axiu<" ++ toString haoda_type_width
      ++ ", 0, 0, 0>>&") }

/-- The `<port>` fragment appended for one port in the loop body of
`print_kernel_xml`: the raw width is padded to `width + 8 + width // 8 * 2`
before substitution, and the rendered template is right-stripped of its
trailing newline. -/
def portEntry (mode : String) (p : AxisPort) : String :=
  let (port_name, _, haoda_type_width, _) := p
  let width := haoda_type_width
  let width := width + 8 + width / 8 * 2
  rstripNewline (AXIS_PORT_TEMPLATE port_name mode width)

/-- The outer loop of `print_kernel_xml` over the two direction groups
`[('read_only', axis_inputs), ('write_only', axis_outputs)]`: accumulates the
`<port>` fragments and the `<arg>` records, incrementing `arg_id` once per
group (after the group's inner loop, regardless of how many ports the group
holds). -/
def kernelLoop : List (String × List AxisPort) → Nat → String → List KernelArg
    → String × List KernelArg
  | [], _, ports, args => (ports, args)
  | (mode, axis_ports) :: rest, arg_id, ports, args =>
      kernelLoop rest (arg_id + 1)
        (ports ++ String.join (axis_ports.map (portEntry mode)))
        (args ++ axis_ports.map (argRecord arg_id))

/-- The list of `<arg>` records in the descriptor produced by
`print_kernel_xml` for the given input and output port specs. -/
def kernelArgList (axis_inputs axis_outputs : List AxisPort) : List KernelArg :=
  (kernelLoop [("read_only", axis_inputs), ("write_only", axis_outputs)]
    0 "" []).2

/-- The concatenated `<port>` fragments of the descriptor. -/
def kernelPorts (axis_inputs axis_outputs : List AxisPort) : String :=
  (kernelLoop [("read_only", axis_inputs), ("write_only", axis_outputs)]
    0 "" []).1

/-- The literal `KERNEL_XML_TEMPLATE` of the source, as a rendering function
of its `{top_name}`, `{ports}` and `{args}` fields. -/
def KERNEL_XML_TEMPLATE (top_name ports args : String) : String :=
  "\n<?xml version=\"1.0\" encoding=\"UTF-8\"?>\n<root versionMajor=\"1\" versionMinor=\"6\">\n  <kernel name=\""
    ++ top_name ++ "\" language=\"ip_c\" vlnv=\"xilinx.com:RTLKernel:"
    ++ top_name
    ++ ":1.0\" attributes=\"\" preferredWorkGroupSizeMultiple=\"0\" workGroupSize=\"1\" interrupt=\"true\">\n    <ports>"
    ++ ports ++ "\n    </ports>\n    <args>" ++ args
    ++ "\n    </args>\n  </kernel>\n</root>\n"

/-- The full document written by `print_kernel_xml`: each accumulated `<arg>`
record is rendered through `ARG_TEMPLATE` and right-stripped of its trailing
newline, exactly as in the source's `args += ARG_TEMPLATE.format(...).rstrip('\n')`. -/
def print_kernel_xml (top_name : String)
    (axis_inputs axis_outputs : List AxisPort) : String :=
  KERNEL_XML_TEMPLATE top_name (kernelPorts axis_inputs axis_outputs)
    (String.join ((kernelArgList axis_inputs axis_outputs).map
      (fun a => rstripNewline (ARG_TEMPLATE a))))

/-! ## `RunHls.__exit__`: artifact collection and failure reclassification

The working tree of the finished HLS run is modelled as the list of paths
(relative to the solution directory, plus the captured log file path) that
exist; `tar.add` on a missing path raises `FileNotFoundError`, which the
source catches by forcing `returncode` to 1 (keeping whatever entries were
already added to the archive). -/

/-- The `(path, arcname)` pairs that `RunHls.__exit__` adds to the tar, in
order: the synthesis report directory, the generated Verilog directory, the
captured tool log, then every scheduling-report file found by `glob` (modelled
by the `schedFiles` list). -/
def tarEntries (solution_name log_path : String) (schedFiles : List String) :
    List (String × String) :=
  [("syn/report", "report"), ("syn/verilog", "hdl"),
    (log_path, "log/" ++ solution_name ++ ".log")]
    ++ schedFiles.map (fun f => (f, "report/" ++ f))

/-- Sequentially `tar.add` each `(path, arcname)` entry: an entry whose path
does not exist raises `FileNotFoundError`, aborting the remaining adds; the
flag records whether every add succeeded, and the list is the archive contents
(the entries added before any failure). -/
def addAll (existing : List String) :
    List (String × String) → List (String × String)
    → Bool × List (String × String)
  | acc, [] => (true, acc)
  | acc, e :: rest =>
      if e.1 ∈ existing then addAll existing (acc ++ [e]) rest
      else (false, acc)

/-- `RunHls.__exit__`: when the tool's `returncode` is 0, collect the
artifacts; if a `FileNotFoundError` occurs, set `returncode` to 1. When the
tool's `returncode` is non-zero, no collection happens at all. Returns the
final `(returncode, archive contents)` observable by the caller. -/
def runHlsExit (solution_name log_path : String)
    (schedFiles existing : List String) (returncode : Int) :
    Int × List (String × String) :=
  if returncode = 0 then
    match addAll existing [] (tarEntries solution_name log_path schedFiles) with
    | (true, acc) => (returncode, acc)
    | (false, acc) => (1, acc)
  else (returncode, [])

/-! ## `get_device_info`: platform metadata extraction

The parsed `.hpfm` XML is modelled structurally: the optional
`xd:component/xd:platformInfo` element, its `xd:systemClocks/xd:clock`
children (each carrying the `xd:id` and `xd:period` attributes read by the
source), and its optional `xd:deviceInfo` child carrying the `xd:name`
attribute. -/

/-- An `xd:clock` element with the two attributes the source reads. -/
structure XdClock where
  id : String
  period : String
deriving DecidableEq

/-- An `xd:deviceInfo` element with its `xd:name` attribute. -/
structure XdDeviceInfo where
  name : String
deriving DecidableEq

/-- The `xd:platformInfo` element: its system clocks and its optional
`xd:deviceInfo` child. -/
structure XdPlatformInfo where
  systemClocks : List XdClock
  deviceInfo : Option XdDeviceInfo
deriving DecidableEq

/-- The parsed platform metadata: the optional
`./xd:component/xd:platformInfo` element found at the document root. -/
structure HpfmMetadata where
  platformInfo : Option XdPlatformInfo
deriving DecidableEq

/-- `get_device_info`, after the archive members have been opened and parsed:
fails with `ValueError('cannot parse platform')` when the platform-info
element is absent, with `ValueError('cannot find clock period in platform')`
when no clock child has `xd:id = '0'`, with
`ValueError('cannot find part number in platform')` when the `xd:deviceInfo`
element is absent, and otherwise returns the clock period and part number. -/
def get_device_info (metadata : HpfmMetadata) : Except String (String × String) :=
  match metadata.platformInfo with
  | none => Except.error "cannot parse platform"
  | some platform_info =>
    match platform_info.systemClocks.find? (fun c => c.id == "0") with
    | none => Except.error "cannot find clock period in platform"
    | some clock_period =>
      match platform_info.deviceInfo with
      | none => Except.error "cannot find part number in platform"
      | some part_num => Except.ok (clock_period.period, part_num.name)

/-! ## The Verilog FIFO generators

`VerilogPrinter._out` is modelled as an explicit string accumulator `out`;
each generator returns `(raised ValueError message?, output after the call)`,
so an error paired with the unchanged `out` models "raise before writing
anything". Python's `int.bit_length` on a nonnegative integer is
`bit_length`. -/

/-- Python's `n.bit_length()` for nonnegative `n`: 0 for 0, otherwise
`floor(log2 n) + 1`. -/
def bit_length (n : Nat) : Nat :=
  if n = 0 then 0 else Nat.log2 n + 1

/-- The literal `BRAM_FIFO_TEMPLATE` of the source, as a rendering function of its `{name}`, `{width}`, `{addr_width}` and `{depth}` fields (the constant Verilog body is kept verbatim). -/
def BRAM_FIFO_TEMPLATE (name : String) (width : Nat) (addr_width : Nat) (depth : Nat) : String :=
  "`default_nettype none\n\n// first-word fall-through (FWFT) FIFO using block RAM\n// based on HLS generated code\nmodule "
    ++ name
    ++ " #(\n  parameter MEM_STYLE  = \"block\",\n  parameter DATA_WIDTH = "
    ++ (toString width)
    ++ ",\n  parameter ADDR_WIDTH = "
    ++ (toString addr_width)
    ++ ",\n  parameter DEPTH      = "
    ++ (toString depth)
    ++ "\n) (\n  input wire clk,\n  input wire reset,\n\n  // write\n  output wire                  if_full_n,\n  input  wire                  if_write_ce,\n  input  wire                  if_write,\n  input  wire [DATA_WIDTH-1:0] if_din,\n\n  // read\n  output wire                  if_empty_n,\n  input  wire                  if_read_ce,\n  input  wire                  if_read,\n  output wire [DATA_WIDTH-1:0] if_dout\n);\n\n(* ram_style = MEM_STYLE *)\nreg  [DATA_WIDTH-1:0] mem[0:DEPTH-1];\nreg  [DATA_WIDTH-1:0] q_buf;\nreg  [ADDR_WIDTH-1:0] waddr;\nreg  [ADDR_WIDTH-1:0] raddr;\nwire [ADDR_WIDTH-1:0] wnext;\nwire [ADDR_WIDTH-1:0] rnext;\nwire                  push;\nwire                  pop;\nreg  [ADDR_WIDTH-1:0] used;\nreg                   full_n;\nreg                   empty_n;\nreg  [DATA_WIDTH-1:0] q_tmp;\nreg                   show_ahead;\nreg  [DATA_WIDTH-1:0] dout_buf;\nreg                   dout_valid;\n\nlocalparam DepthM1 = DEPTH[ADDR_WIDTH-1:0] - 1\x27d1;\n\nassign if_full_n  = full_n;\nassign if_empty_n = dout_valid;\nassign if_dout    = dout_buf;\nassign push       = full_n & if_write_ce & if_write;\nassign pop        = empty_n & if_read_ce & (~dout_valid | if_read);\nassign wnext      = !push              ? waddr              :\n                    (waddr == DepthM1) ? \x7bADDR_WIDTH\x7b1\x27b0\x7d\x7d : waddr + 1\x27d1;\nassign rnext      = !pop               ? raddr              :\n                    (raddr == DepthM1) ? \x7bADDR_WIDTH\x7b1\x27b0\x7d\x7d : raddr + 1\x27d1;\n\n// waddr\nalways @(posedge clk) begin\n  if (reset)\n    waddr <= \x7bADDR_WIDTH\x7b1\x27b0\x7d\x7d;\n  else\n    waddr <= wnext;\nend\n\n// raddr\nalways @(posedge clk) begin\n  if (reset)\n    raddr <= \x7bADDR_WIDTH\x7b1\x27b0\x7d\x7d;\n  else\n    raddr <= rnext;\nend\n\n// used\nalways @(posedge clk) begin\n  if (reset)\n    used <= \x7bADDR_WIDTH\x7b1\x27b0\x7d\x7d;\n  else if (push && !pop)\n    used <= used + 1\x27b1;\n  else if (!push && pop)\n    used <= used - 1\x27b1;\nend\n\n// full_n\nalways @(posedge clk) begin\n  if (reset)\n    full_n <= 1\x27b1;\n  else if (push && !pop)\n    full_n <= (used != DepthM1);\n  else if (!push && pop)\n    full_n <= 1\x27b1;\nend\n\n// empty_n\nalways @(posedge clk) begin\n  if (reset)\n    empty_n <= 1\x27b0;\n  else if (push && !pop)\n    empty_n <= 1\x27b1;\n  else if (!push && pop)\n    empty_n <= (used != \x7b\x7b(ADDR_WIDTH-1)\x7b1\x27b0\x7d\x7d,1\x27b1\x7d);\nend\n\n// mem\nalways @(posedge clk) begin\n  if (push)\n    mem[waddr] <= if_din;\nend\n\n// q_buf\nalways @(posedge clk) begin\n  q_buf <= mem[rnext];\nend\n\n// q_tmp\nalways @(posedge clk) begin\n  if (reset)\n    q_tmp <= \x7bDATA_WIDTH\x7b1\x27b0\x7d\x7d;\n  else if (push)\n    q_tmp <= if_din;\nend\n\n// show_ahead\nalways @(posedge clk) begin\n  if (reset)\n    show_ahead <= 1\x27b0;\n  else if (push && used == \x7b\x7b(ADDR_WIDTH-1)\x7b1\x27b0\x7d\x7d,pop\x7d)\n    show_ahead <= 1\x27b1;\n  else\n    show_ahead <= 1\x27b0;\nend\n\n// dout_buf\nalways @(posedge clk) begin\n  if (reset)\n    dout_buf <= \x7bDATA_WIDTH\x7b1\x27b0\x7d\x7d;\n  else if (pop)\n    dout_buf <= show_ahead? q_tmp : q_buf;\nend\n\n// dout_valid\nalways @(posedge clk) begin\n  if (reset)\n    dout_valid <= 1\x27b0;\n  else if (pop)\n    dout_valid <= 1\x27b1;\n  else if (if_read_ce & if_read)\n    dout_valid <= 1\x27b0;\nend\n\nendmodule  // fifo_bram\n\n`default_nettype wire\n"

/-- The literal `SRL_FIFO_TEMPLATE` of the source, as a rendering function of its fields; the `depth_width` argument is passed by `srl_fifo_module` but, as in the source template, never substituted. -/
def SRL_FIFO_TEMPLATE (name : String) (width : Nat) (addr_width : Nat) (depth : Nat) (depth_width : Nat) : String :=
  "`default_nettype none\n\n// first-word fall-through (FWFT) FIFO using shift register LUT\n// based on HLS generated code\nmodule "
    ++ name
    ++ " #(\n  parameter MEM_STYLE  = \"shiftreg\",\n  parameter DATA_WIDTH = "
    ++ (toString width)
    ++ ",\n  parameter ADDR_WIDTH = "
    ++ (toString addr_width)
    ++ ",\n  parameter DEPTH      = "
    ++ (toString depth)
    ++ "\n) (\n  input wire clk,\n  input wire reset,\n\n  // write\n  output wire                  if_full_n,\n  input  wire                  if_write_ce,\n  input  wire                  if_write,\n  input  wire [DATA_WIDTH-1:0] if_din,\n\n  // read\n  output wire                  if_empty_n,\n  input  wire                  if_read_ce,\n  input  wire                  if_read,\n  output wire [DATA_WIDTH-1:0] if_dout\n);\n\n  wire [ADDR_WIDTH - 1:0] shift_reg_addr;\n  wire [DATA_WIDTH - 1:0] shift_reg_data;\n  wire [DATA_WIDTH - 1:0] shift_reg_q;\n  wire                    shift_reg_ce;\n  reg  [ADDR_WIDTH:0]     out_ptr;\n  reg                     internal_empty_n;\n  reg                     internal_full_n;\n\n  reg [DATA_WIDTH-1:0] mem [0:DEPTH-1];\n\n  assign if_empty_n = internal_empty_n;\n  assign if_full_n = internal_full_n;\n  assign shift_reg_data = if_din;\n  assign if_dout = shift_reg_q;\n\n  assign shift_reg_addr = out_ptr[ADDR_WIDTH] == 1\x27b0 ? out_ptr[ADDR_WIDTH-1:0] : \x7bADDR_WIDTH\x7b1\x27b0\x7d\x7d;\n  assign shift_reg_ce = (if_write & if_write_ce) & internal_full_n;\n\n  assign shift_reg_q = mem[shift_reg_addr];\n\n  always @(posedge clk) begin\n    if (reset) begin\n      out_ptr <= ~\x7bADDR_WIDTH+1\x7b1\x27b0\x7d\x7d;\n      internal_empty_n <= 1\x27b0;\n      internal_full_n <= 1\x27b1;\n    end else begin\n      if (((if_read && if_read_ce) && internal_empty_n) &&\n          (!(if_write && if_write_ce) || !internal_full_n)) begin\n        out_ptr <= out_ptr - 1\x27b1;\n        if (out_ptr == \x7b(ADDR_WIDTH+1)\x7b1\x27b0\x7d\x7d)\n          internal_empty_n <= 1\x27b0;\n        internal_full_n <= 1\x27b1;\n      end\n      else if (((if_read & if_read_ce) == 0 | internal_empty_n == 0) &&\n        ((if_write & if_write_ce) == 1 & internal_full_n == 1))\n      begin\n        out_ptr <= out_ptr + 1\x27b1;\n        internal_empty_n <= 1\x27b1;\n        if (out_ptr == DEPTH - \x7b\x7b(ADDR_WIDTH-1)\x7b1\x27b0\x7d\x7d, 2\x27d2\x7d)\n          internal_full_n <= 1\x27b0;\n      end\n    end\n  end\n\n  integer i;\n  always @(posedge clk) begin\n    if (shift_reg_ce) begin\n      for (i = 0; i < DEPTH - 1; i = i + 1)\n        mem[i + 1] <= mem[i];\n      mem[0] <= shift_reg_data;\n    end\n  end\n\nendmodule  // fifo_srl\n\n`default_nettype wire\n"


/-- `VerilogPrinter.bram_fifo_module`: reject `depth < 2` (raising
`ValueError` before writing anything), default an empty `name` to
`fifo_w{width}_d{depth}_A`, then write the BRAM template with
`addr_width = (depth - 1).bit_length()`. -/
def bram_fifo_module (width depth : Nat) (name : String) (out : String) :
    Option String × String :=
  if depth < 2 then
    (some ("Invalid BRAM FIFO depth: " ++ toString depth ++ " < 1"), out)
  else
    let name := if name = "" then
      "fifo_w" ++ toString width ++ "_d" ++ toString depth ++ "_A" else name
    (none, out ++ BRAM_FIFO_TEMPLATE name width (bit_length (depth - 1)) depth)

/-- `VerilogPrinter.srl_fifo_module`: reject `depth < 2` (raising `ValueError`
before writing anything), default an empty `name` to
`fifo_w{width}_d{depth}_A`, then write the SRL template with
`addr_width = (depth - 1).bit_length()` (and the unused `depth_width`
argument `addr_width + 1`). -/
def srl_fifo_module (width depth : Nat) (name : String) (out : String) :
    Option String × String :=
  if depth < 2 then
    (some ("Invalid SRL FIFO depth: " ++ toString depth ++ " < 1"), out)
  else
    let name := if name = "" then
      "fifo_w" ++ toString width ++ "_d" ++ toString depth ++ "_A" else name
    let addr_width := bit_length (depth - 1)
    (none, out ++ SRL_FIFO_TEMPLATE name width addr_width depth (addr_width + 1))

/-- `VerilogPrinter.fifo_module`: choose the BRAM implementation when
`width * depth > threshold`, else the SRL implementation. The `name`
parameter is accepted but not forwarded to either generator (both are called
with their default empty name, as in the source). -/
def fifo_module (width depth : Nat) (name : String) (threshold : Nat)
    (out : String) : Option String × String :=
  if width * depth > threshold then bram_fifo_module width depth "" out
  else srl_fifo_module width depth "" out

/-! ## Theorems settling the specification's claims -/

/-- The arg list accumulated by the loop of `print_kernel_xml`: one record per
input port with the group id 0, followed by one record per output port with
the group id 1. -/
theorem kernelArgList_eq (axis_inputs axis_outputs : List AxisPort) :
    kernelArgList axis_inputs axis_outputs =
      axis_inputs.map (argRecord 0) ++ axis_outputs.map (argRecord 1) := by
  simp [kernelArgList, kernelLoop]

/-- Claim C1, counterexample: for zero input and zero output port specs the
descriptor produced by `print_kernel_xml` holds 0 `<arg>` elements, not 2 —
the element count is not the constant 2 independent of N and M. -/
theorem print_kernel_xml_two_args_cex :
    ¬ ((kernelArgList [] []).length = 2) := by decide

/-- Claim C1, amended: for every sequence of N read-only (input) port specs
and M write-only (output) port specs, the descriptor document produced by
`print_kernel_xml` contains exactly N + M `<arg>` elements — one per port,
not one per direction group (only the `id` attribute is shared per group). -/
theorem print_kernel_xml_arg_count (axis_inputs axis_outputs : List AxisPort) :
    (kernelArgList axis_inputs axis_outputs).length
      = axis_inputs.length + axis_outputs.length := by
  rw [kernelArgList_eq]; simp

/-- Claim C2, counterexample: in the descriptor for a single 32-bit input
port, the `<arg>` element does not carry both size="0x8" and offset="0x8" —
its offset attribute renders as "0x0". -/
theorem print_kernel_xml_offset_cex :
    ¬ (∀ a ∈ kernelArgList [("in0", "", 32, "")] [],
        pyHex a.size = "0x8" ∧ pyHex a.offset = "0x8") := by decide

/-- Claim C2, amended: in every descriptor produced by `print_kernel_xml`,
each `<arg>` element's size attribute and hostSize attribute are the fixed
constant 8 (rendered in hex as "0x8"), while its offset attribute is the
fixed constant 0 (rendered "0x0"), for every combination of input and output
port specs. -/
theorem print_kernel_xml_arg_constants
    (axis_inputs axis_outputs : List AxisPort) :
    ∀ a ∈ kernelArgList axis_inputs axis_outputs,
      a.size = 8 ∧ a.offset = 0 ∧ a.host_size = 8 ∧
      pyHex a.size = "0x8" ∧ pyHex a.offset = "0x0" ∧
      pyHex a.host_size = "0x8" := by
  intro a ha
  rw [kernelArgList_eq] at ha
  rcases List.mem_append.mp ha with h | h <;>
    obtain ⟨⟨pn, u, w, v⟩, -, rfl⟩ := List.mem_map.mp h <;>
    exact ⟨rfl, rfl, rfl, (show pyHex 8 = "0x8" by decide),
      (show pyHex 0 = "0x0" by decide), (show pyHex 8 = "0x8" by decide)⟩

/-- Witness for claim C2: the arg emitted for a concrete 32-bit input port
has size 8, offset 0 and hostSize 8, rendered "0x8" / "0x0" / "0x8". -/
theorem print_kernel_xml_arg_constants_witness :
    (argRecord 0 ("in0", "", 32, "")).size = 8 ∧
    (argRecord 0 ("in0", "", 32, "")).offset = 0 ∧
    (argRecord 0 ("in0", "", 32, "")).host_size = 8 ∧
    pyHex (argRecord 0 ("in0", "", 32, "")).size = "0x8" ∧
    pyHex (argRecord 0 ("in0", "", 32, "")).offset = "0x0" ∧
    pyHex (argRecord 0 ("in0", "", 32, "")).host_size = "0x8" :=
  print_kernel_xml_arg_constants [("in0", "", 32, "")] [] _ (by decide)

/-- Claim C3: for every port spec with raw bit width w, the `<port>` element
emitted for it by `print_kernel_xml` carries dataWidth = w + 8 + (w / 8) * 2;
in particular for w = 32 the emitted dataWidth is 48. -/
theorem print_kernel_xml_port_width :
    (∀ (mode n a b : String) (w : Nat),
      portEntry mode (n, a, w, b)
        = rstripNewline (AXIS_PORT_TEMPLATE n mode (w + 8 + w / 8 * 2))) ∧
    portEntry "read_only" ("in0", "x", 32, "y") =
      "\n      <port name=\"in0\" mode=\"read_only\" dataWidth=\"48\" portType=\"stream\"/>" :=
  ⟨fun _ _ _ _ _ => rfl, by decide⟩

/-- Claim C4: every `<arg>` element emitted by `print_kernel_xml` for a
read-only (input) port has id 0 and every `<arg>` element emitted for a
write-only (output) port has id 1, regardless of how many ports each
direction group contains (including an empty read-only group, since the
group counter increments per group, not per port). -/
theorem print_kernel_xml_arg_ids (axis_inputs axis_outputs : List AxisPort) :
    (∀ a ∈ (kernelArgList axis_inputs axis_outputs).take axis_inputs.length,
      a.arg_id = 0) ∧
    (∀ a ∈ (kernelArgList axis_inputs axis_outputs).drop axis_inputs.length,
      a.arg_id = 1) := by
  rw [kernelArgList_eq]
  constructor
  · intro a ha
    rw [show axis_inputs.length = (axis_inputs.map (argRecord 0)).length by
      simp, List.take_left] at ha
    obtain ⟨⟨pn, u, w, v⟩, -, rfl⟩ := List.mem_map.mp ha
    rfl
  · intro a ha
    rw [show axis_inputs.length = (axis_inputs.map (argRecord 0)).length by
      simp, List.drop_left] at ha
    obtain ⟨⟨pn, u, w, v⟩, -, rfl⟩ := List.mem_map.mp ha
    rfl

/-- Witness for claim C4: a concrete input port's arg has id 0, and a
concrete output port's arg has id 1 even when the read-only group is empty. -/
theorem print_kernel_xml_arg_ids_witness :
    (argRecord 0 ("in0", "", 32, "")).arg_id = 0 ∧
    (argRecord 1 ("out0", "", 64, "")).arg_id = 1 := by
  refine ⟨(print_kernel_xml_arg_ids [("in0", "", 32, "")] []).1 _ (by decide),
    (print_kernel_xml_arg_ids [] [("out0", "", 64, "")]).2 _ (by decide)⟩

/-- Claim C5: artifact collection in `RunHls.__exit__` runs only when the
tool's exit status is 0 (otherwise the archive stays empty and the exit code
is passed through), and when an expected output path such as `syn/verilog`
is absent the result's exit code is forced to 1 even though the tool
reported success — observable in the returned result. -/
theorem runHlsExit_reclassifies (solution_name log_path : String)
    (schedFiles existing : List String) (returncode : Int) :
    (returncode ≠ 0 →
      runHlsExit solution_name log_path schedFiles existing returncode
        = (returncode, [])) ∧
    (returncode = 0 → "syn/verilog" ∉ existing →
      (runHlsExit solution_name log_path schedFiles existing returncode).1
        = 1) := by
  constructor
  · intro h
    simp [runHlsExit, h]
  · intro h0 hmem
    subst h0
    by_cases h1 : ("syn/report" : String) ∈ existing
    · simp [runHlsExit, tarEntries, addAll, h1, hmem]
    · simp [runHlsExit, tarEntries, addAll, h1]

/-- Witness for claim C5: with only `syn/report` present, a failing tool run
(exit 2) collects nothing, and a succeeding one (exit 0) is reclassified to
exit code 1 because `syn/verilog` is missing. -/
theorem runHlsExit_reclassifies_witness :
    runHlsExit "top" "cwd/vivado_hls.log" [] ["syn/report"] 2 = (2, []) ∧
    (runHlsExit "top" "cwd/vivado_hls.log" [] ["syn/report"] 0).1 = 1 :=
  ⟨(runHlsExit_reclassifies "top" "cwd/vivado_hls.log" [] ["syn/report"] 2).1
      (by decide),
    (runHlsExit_reclassifies "top" "cwd/vivado_hls.log" [] ["syn/report"] 0).2
      rfl (by decide)⟩

/-- Claim C6: `fifo_module` generates the block-memory-backed FIFO if and
only if width * depth > threshold; in the boundary case
width * depth = threshold it generates the shift-register-backed FIFO (the
comparison is strict). -/
theorem fifo_module_threshold_selection (width depth : Nat) (name : String)
    (threshold : Nat) (out : String) :
    (width * depth > threshold →
      fifo_module width depth name threshold out
        = bram_fifo_module width depth "" out) ∧
    (width * depth ≤ threshold →
      fifo_module width depth name threshold out
        = srl_fifo_module width depth "" out) ∧
    (width * depth = threshold →
      fifo_module width depth name threshold out
        = srl_fifo_module width depth "" out) := by
  refine ⟨fun h => ?_, fun h => ?_, fun h => ?_⟩
  · simp [fifo_module, h]
  · simp [fifo_module, Nat.not_lt.mpr h]
  · simp [fifo_module, h]

/-- Witness for claim C6: 1 * 3 > 1 selects the BRAM generator, and the
boundary 32 * 32 = 1024 (the default threshold) selects the SRL generator. -/
theorem fifo_module_threshold_selection_witness :
    fifo_module 1 3 "nm" 1 "" = bram_fifo_module 1 3 "" "" ∧
    fifo_module 32 32 "nm" 1024 "" = srl_fifo_module 32 32 "" "" :=
  ⟨(fifo_module_threshold_selection 1 3 "nm" 1 "").1 (by decide),
    (fifo_module_threshold_selection 32 32 "nm" 1024 "").2.2 (by decide)⟩

/-- Python's `(depth - 1).bit_length()` equals the ceiling of log2 of depth
for every depth ≥ 2. -/
theorem bit_length_pred_eq_clog {d : Nat} (hd : 2 ≤ d) :
    bit_length (d - 1) = Nat.clog 2 d := by
  have hd1 : d - 1 ≠ 0 := by omega
  have hlog2 : bit_length (d - 1) = Nat.log 2 (d - 1) + 1 := by
    rw [bit_length, if_neg hd1, Nat.log2_eq_log_two]
  rw [hlog2]
  apply le_antisymm
  · have h1 : 2 ^ Nat.log 2 (d - 1) < d :=
      lt_of_le_of_lt (Nat.pow_log_le_self 2 hd1) (by omega)
    have h2 := (Nat.pow_lt_iff_lt_clog (by norm_num)).mp h1
    omega
  · apply (Nat.le_pow_iff_clog_le (by norm_num)).mp
    have h2 : d - 1 < 2 ^ (Nat.log 2 (d - 1) + 1) :=
      Nat.lt_pow_succ_log_self (by norm_num) _
    omega

/-- Claim C7: for every depth ≥ 2 the address width substituted into the
generated RTL by both `bram_fifo_module` and `srl_fifo_module` is
`bit_length (depth - 1) = ceil(log2 depth)`, and both generators accept
every such depth (no error is raised and the template is written). -/
theorem fifo_addr_width (width depth : Nat) (name out : String)
    (hd : 2 ≤ depth) :
    bit_length (depth - 1) = Nat.clog 2 depth ∧
    bram_fifo_module width depth name out =
      (none, out ++ BRAM_FIFO_TEMPLATE
        (if name = "" then
          "fifo_w" ++ toString width ++ "_d" ++ toString depth ++ "_A"
        else name)
        width (Nat.clog 2 depth) depth) ∧
    srl_fifo_module width depth name out =
      (none, out ++ SRL_FIFO_TEMPLATE
        (if name = "" then
          "fifo_w" ++ toString width ++ "_d" ++ toString depth ++ "_A"
        else name)
        width (Nat.clog 2 depth) depth (Nat.clog 2 depth + 1)) := by
  have hb := bit_length_pred_eq_clog hd
  have h2 : ¬ depth < 2 := by omega
  refine ⟨hb, ?_, ?_⟩
  · simp [bram_fifo_module, h2, hb]
  · simp [srl_fifo_module, h2, hb]

/-- Witness for claim C7: at depth 2 both generators succeed and the
substituted address width is `bit_length 1 = Nat.clog 2 2`. -/
theorem fifo_addr_width_witness :
    (bram_fifo_module 8 2 "" "").1 = none ∧
    (srl_fifo_module 8 2 "" "").1 = none ∧
    bit_length (2 - 1) = Nat.clog 2 2 := by
  have h := fifo_addr_width 8 2 "" "" (by decide)
  exact ⟨by rw [h.2.1], by rw [h.2.2], h.1⟩

/-- Claim C8: for every width and every depth < 2, both `bram_fifo_module`
and `srl_fifo_module` raise a `ValueError` and write no text at all to the
output before raising (the output state is returned unchanged). -/
theorem fifo_depth_lt_two_rejected (width depth : Nat) (name out : String)
    (hd : depth < 2) :
    bram_fifo_module width depth name out =
      (some ("Invalid BRAM FIFO depth: " ++ toString depth ++ " < 1"), out) ∧
    srl_fifo_module width depth name out =
      (some ("Invalid SRL FIFO depth: " ++ toString depth ++ " < 1"), out) := by
  constructor <;> simp [bram_fifo_module, srl_fifo_module, hd]

/-- Witness for claim C8: at depth 1 both generators raise their size error
and leave the previously written output "abc" untouched. -/
theorem fifo_depth_lt_two_rejected_witness :
    bram_fifo_module 8 1 "nm" "abc"
      = (some "Invalid BRAM FIFO depth: 1 < 1", "abc") ∧
    srl_fifo_module 8 1 "nm" "abc"
      = (some "Invalid SRL FIFO depth: 1 < 1", "abc") := by
  have h := fifo_depth_lt_two_rejected 8 1 "nm" "abc" (by decide)
  exact ⟨h.1.trans (by decide), h.2.trans (by decide)⟩

/-- Claim C9: `get_device_info` fails with a descriptive `ValueError` in
exactly three cases — platform-info element absent, clock element with id
"0" absent, part-number element absent — each naming the missing element
(in particular a missing clock yields the missing-clock-period error, not a
generic parse error), and succeeds on every other input, producing no other
error. -/
theorem get_device_info_failure_modes (metadata : HpfmMetadata) :
    (metadata.platformInfo = none →
      get_device_info metadata = Except.error "cannot parse platform") ∧
    (∀ platform_info, metadata.platformInfo = some platform_info →
      platform_info.systemClocks.find? (fun c => c.id == "0") = none →
      get_device_info metadata
        = Except.error "cannot find clock period in platform") ∧
    (∀ platform_info clock_period,
      metadata.platformInfo = some platform_info →
      platform_info.systemClocks.find? (fun c => c.id == "0")
        = some clock_period →
      platform_info.deviceInfo = none →
      get_device_info metadata
        = Except.error "cannot find part number in platform") ∧
    (∀ platform_info clock_period part_num,
      metadata.platformInfo = some platform_info →
      platform_info.systemClocks.find? (fun c => c.id == "0")
        = some clock_period →
      platform_info.deviceInfo = some part_num →
      get_device_info metadata
        = Except.ok (clock_period.period, part_num.name)) := by
  refine ⟨fun h => ?_, fun pi hpi hc => ?_, fun pi c hpi hc hdev => ?_,
    fun pi c dv hpi hc hdev => ?_⟩ <;>
    simp [get_device_info, *]

/-- Witness for claim C9: each of the three missing-element failures and the
all-present success case, on concrete metadata values (a bundle missing only
the id-"0" clock fails with the missing-clock-period error). -/
theorem get_device_info_failure_modes_witness :
    get_device_info ⟨none⟩ = Except.error "cannot parse platform" ∧
    get_device_info ⟨some ⟨[⟨"1", "5.0"⟩], some ⟨"xcvu9p"⟩⟩⟩
      = Except.error "cannot find clock period in platform" ∧
    get_device_info ⟨some ⟨[⟨"0", "3.33"⟩], none⟩⟩
      = Except.error "cannot find part number in platform" ∧
    get_device_info ⟨some ⟨[⟨"0", "3.33"⟩], some ⟨"xcvu9p"⟩⟩⟩
      = Except.ok ("3.33", "xcvu9p") :=
  ⟨(get_device_info_failure_modes ⟨none⟩).1 rfl,
    (get_device_info_failure_modes _).2.1 _ rfl (by decide),
    (get_device_info_failure_modes _).2.2.1 _ ⟨"0", "3.33"⟩ rfl (by decide) rfl,
    (get_device_info_failure_modes _).2.2.2 _ ⟨"0", "3.33"⟩ ⟨"xcvu9p"⟩ rfl
      (by decide) rfl⟩

/-- Claim C10: the name argument of `fifo_module` is never forwarded to the
underlying generators, so for any two names the written text is identical,
and (for any accepted depth) the generated module is always named
`fifo_w{width}_d{depth}_A`, the generators' default. -/
theorem fifo_module_name_invariance (width depth threshold : Nat)
    (n1 n2 : String) (out : String) :
    fifo_module width depth n1 threshold out
      = fifo_module width depth n2 threshold out ∧
    (2 ≤ depth → threshold < width * depth →
      (fifo_module width depth n1 threshold out).2 = out ++ BRAM_FIFO_TEMPLATE
        ("fifo_w" ++ toString width ++ "_d" ++ toString depth ++ "_A")
        width (bit_length (depth - 1)) depth) ∧
    (2 ≤ depth → width * depth ≤ threshold →
      (fifo_module width depth n1 threshold out).2 = out ++ SRL_FIFO_TEMPLATE
        ("fifo_w" ++ toString width ++ "_d" ++ toString depth ++ "_A")
        width (bit_length (depth - 1)) depth (bit_length (depth - 1) + 1)) := by
  refine ⟨rfl, fun hd hlt => ?_, fun hd hle => ?_⟩
  · have h2 : ¬ depth < 2 := by omega
    simp [fifo_module, bram_fifo_module, hlt, h2]
  · have h2 : ¬ depth < 2 := by omega
    simp [fifo_module, srl_fifo_module, Nat.not_lt.mpr hle, h2]

/-- Witness for claim C10: two different supplied names produce identical
output, and at the concrete boundary case the module written carries the
default name `fifo_w32_d32_A`. -/
theorem fifo_module_name_invariance_witness :
    fifo_module 32 32 "a" 1024 "" = fifo_module 32 32 "b" 1024 "" ∧
    (fifo_module 32 32 "a" 1024 "").2 = "" ++ SRL_FIFO_TEMPLATE
      ("fifo_w" ++ toString 32 ++ "_d" ++ toString 32 ++ "_A")
      32 (bit_length (32 - 1)) 32 (bit_length (32 - 1) + 1) :=
  ⟨(fifo_module_name_invariance 32 32 1024 "a" "b" "").1,
    (fifo_module_name_invariance 32 32 1024 "a" "b" "").2.2 (by decide)
      (by decide)⟩
